import Mathlib

/-!
Verification of the core of the async-workflow-orchestrator repository.

Shallow embedding of:
* `src/core/orchestrator.py` — `WorkflowOrchestrator` (state machine built on
  the `transitions` library, per-run event loop, automatic and single-step
  execution);
* `src/core/worker_manager.py` — `WorkerManager` task dispatch logic.

Machine states and the persisted workflow record are translated directly from
the source.  Wall-clock timestamps (`datetime.now(timezone.utc)`) are modelled
by a logical clock (`Orch.clock`): every call to `now` yields the current tick
and advances the clock, so distinct calls yield strictly increasing values.
Database rows (the workflow record and the append-only transition table) are
carried inside the orchestrator state; the DAO `update`/`create` calls become
functional record updates (SQLAlchemy's `onupdate` hook on `updated_at` is
modelled by bumping `updated_at` on every record update).
-/

namespace Orchestrator

/-- The seven machine states (`WorkflowOrchestrator.states`, orchestrator.py:25).
`WorkflowStatus` (db/models.py) is a string enum over exactly the same seven
names and is modelled by this same type. -/
inductive WState where
  | INIT
  | PREPARE
  | EXECUTE
  | VALIDATE
  | COMPLETE
  | FAILED
  | CANCELLED
deriving DecidableEq, Repr

/-- A transition source as written in the Python table: either a single state
name (a string) or a list of state names. -/
inductive TSource where
  | single (s : WState)
  | multi (l : List WState)
deriving DecidableEq, Repr

/-- `before`/`after` callbacks named in the transition table. -/
inductive Hook where
  | onStateEnter
  | onComplete
  | onFail
  | onCancel
  | logTransition
deriving DecidableEq, Repr

/-- One entry of `WorkflowOrchestrator.transitions` (orchestrator.py:46-54). -/
structure TransitionDef where
  trigger : String
  source : TSource
  dest : WState
  before : Option Hook
  after : Option Hook
deriving DecidableEq, Repr

/-- The transition table, orchestrator.py lines 46-54, verbatim.  Note the
`retry` row declares no `before`/`after` callbacks in the source. -/
def transitionsTable : List TransitionDef :=
  [ ⟨"prepare", .single .INIT, .PREPARE, some .onStateEnter, some .logTransition⟩,
    ⟨"execute", .single .PREPARE, .EXECUTE, some .onStateEnter, some .logTransition⟩,
    ⟨"validate", .single .EXECUTE, .VALIDATE, some .onStateEnter, some .logTransition⟩,
    ⟨"complete", .single .VALIDATE, .COMPLETE, some .onComplete, some .logTransition⟩,
    ⟨"fail", .multi [.INIT, .PREPARE, .EXECUTE, .VALIDATE], .FAILED, some .onFail, some .logTransition⟩,
    ⟨"cancel", .multi [.INIT, .PREPARE, .EXECUTE, .VALIDATE], .CANCELLED, some .onCancel, some .logTransition⟩,
    ⟨"retry", .single .FAILED, .INIT, none, none⟩ ]

/-- The seven declared trigger names. -/
def declaredTriggerNames : List String :=
  ["prepare", "execute", "validate", "complete", "fail", "cancel", "retry"]

/-- Membership of a state in a declared source, as the `transitions` library
resolves it when firing: a list source matches any of its members. -/
def stateInSource (s : WState) (src : TSource) : Bool :=
  match src with
  | .single x => s == x
  | .multi l => l.contains s

/-- The comparison `transition['source'] == self.state` performed by
`get_next_trigger` (orchestrator.py:209): a Python `==` between the raw table
entry and the current state string, so a list-valued source never matches. -/
def sourceEqState (src : TSource) (s : WState) : Bool :=
  match src with
  | .single x => x == s
  | .multi _ => false

/-- Terminal states (`['COMPLETE', 'FAILED', 'CANCELLED']`,
orchestrator.py:310). -/
def isTerminal (s : WState) : Bool :=
  match s with
  | .COMPLETE => true
  | .FAILED => true
  | .CANCELLED => true
  | _ => false

/-- The persisted `Workflow` row (db/models.py), restricted to the fields the
core reads or writes.  `status` and `current_state` are stored as a string
enum and a string over the same seven state names; both are modelled by
`WState`.  Timestamps are logical-clock ticks. -/
structure Workflow where
  status : WState
  current_state : WState
  retries : Nat
  started_at : Option Nat
  completed_at : Option Nat
  error_message : Option String
  updated_at : Nat
deriving DecidableEq, Repr

/-- A row of the append-only `workflow_transitions` table (db/models.py),
as created by `_log_transition`. -/
structure TransitionRecord where
  from_state : WState
  to_state : WState
  trigger : String
  created_at : Nat
deriving DecidableEq, Repr

/-- A queued event `(event_name, kwargs)` (orchestrator.py:152).  The only
keyword argument the core ever passes is `error` (on `fail` events). -/
structure Event where
  name : String
  error : Option String
deriving DecidableEq, Repr

/-- The state of one orchestrator run: the machine state (`self.state`), the
persisted workflow row, the transition table rows for this workflow, the FIFO
event queue, the in-memory `_task_results` keys, and the logical clock. -/
structure Orch where
  machineState : WState
  workflow : Workflow
  log : List TransitionRecord
  queue : List Event
  taskResults : List WState
  clock : Nat
deriving DecidableEq, Repr

/-- Run one named callback.  `src`/`dst` are `event.transition.source` and
`event.transition.dest` for the matched transition; `err` is
`event.kwargs.get('error')`.  Each `datetime.now` call consumes one clock
tick; DAO updates additionally refresh `updated_at` (the column's `onupdate`
default). -/
def runHook (h : Hook) (src dst : WState) (trig : String) (err : Option String)
    (o : Orch) : Orch :=
  match h with
  | .onStateEnter =>
    -- orchestrator.py:103-108: set started_at on first entry only
    match o.workflow.started_at with
    | none =>
      { o with
        clock := o.clock + 2,
        workflow := { o.workflow with
          started_at := some o.clock, updated_at := o.clock + 1 } }
    | some _ => o
  | .onComplete =>
    -- orchestrator.py:110-115
    { o with
      clock := o.clock + 2,
      workflow := { o.workflow with
        completed_at := some o.clock, updated_at := o.clock + 1 } }
  | .onFail =>
    -- orchestrator.py:117-129
    { o with
      clock := o.clock + 2,
      workflow := { o.workflow with
        completed_at := some o.clock,
        error_message := some (err.getD "Unknown error"),
        updated_at := o.clock + 1 } }
  | .onCancel =>
    -- orchestrator.py:131-136
    { o with
      clock := o.clock + 2,
      workflow := { o.workflow with
        completed_at := some o.clock, updated_at := o.clock + 1 } }
  | .logTransition =>
    -- orchestrator.py:77-101: append a transition row, then update the
    -- workflow's status and current_state to the destination.
    { o with
      clock := o.clock + 3,
      log := o.log ++ [⟨src, dst, trig, o.clock + 1⟩],
      workflow := { o.workflow with
        status := dst, current_state := dst, updated_at := o.clock + 2 } }

/-- Run an optional callback slot of a transition entry. -/
def runHookOpt (h : Option Hook) (src dst : WState) (trig : String)
    (err : Option String) (o : Orch) : Orch :=
  match h with
  | none => o
  | some hk => runHook hk src dst trig err o

/-- Errors raised by a trigger attempt: `transitions.core.MachineError`
(the spec's InvalidTransition) when the current state is outside the declared
source set, and Python's AttributeError when no such trigger exists. -/
inductive FireError where
  | invalidTransition (trigger : String) (state : WState)
  | attributeMissing (name : String)
deriving DecidableEq, Repr

/-- Human-readable text of a fire error (`str(e)` in the event loop). -/
def fireErrorText : FireError → String
  | .invalidTransition t _ => "Cant trigger event " ++ t ++ " from current state"
  | .attributeMissing n => "AttributeError: " ++ n

/-- Lookup of a trigger in the table by name. -/
def findTransition (name : String) : Option TransitionDef :=
  transitionsTable.find? (fun t => t.trigger == name)

/-- Firing a trigger method generated by `Machine` (orchestrator.py:57-64):
if the current state is in the declared source set, run the `before`
callback, move to the destination, run the `after` callback; otherwise raise
without touching anything.  The result pairs the (possibly unchanged) run
state with the raised error, if any. -/
def fireTriggerTotal (o : Orch) (name : String) (err : Option String) :
    Orch × Option FireError :=
  match findTransition name with
  | none => (o, some (.attributeMissing name))
  | some t =>
    if stateInSource o.machineState t.source then
      let src := o.machineState
      let o1 := runHookOpt t.before src t.dest name err o
      let o2 := { o1 with machineState := t.dest }
      let o3 := runHookOpt t.after src t.dest name err o2
      (o3, none)
    else
      (o, some (.invalidTransition name o.machineState))

/-- `get_next_trigger` (orchestrator.py:203-211): first table entry whose raw
source compares equal (Python `==`) to the current state string. -/
def nextTrigger (s : WState) : Option String :=
  (transitionsTable.find? (fun t => sourceEqState t.source s)).map
    (fun t => t.trigger)

/-- Number of table entries whose declared source set contains a state. -/
def countSourceContains (s : WState) : Nat :=
  (transitionsTable.filter (fun t => stateInSource s t.source)).length

/-- `_transition_to_next_state` (orchestrator.py:154-165): fire the next
trigger synchronously if one exists, else do nothing. -/
def transitionToNextState (o : Orch) : Orch × Option FireError :=
  match nextTrigger o.machineState with
  | some t => fireTriggerTotal o t none
  | none => (o, none)

/-- `advance_to_next_state` (orchestrator.py:213-220): enqueue the next
trigger as an event if one exists. -/
def advanceToNextState (o : Orch) : Orch :=
  match nextTrigger o.machineState with
  | some t => { o with queue := o.queue ++ [⟨t, none⟩] }
  | none => o

/-- `_on_retry` (orchestrator.py:138-148).  This handler exists on the class
but is wired to no transition table row, so the `retry` trigger never calls
it. -/
def applyOnRetry (o : Orch) : Orch :=
  { o with
    clock := o.clock + 1,
    workflow := { o.workflow with
      retries := o.workflow.retries + 1,
      error_message := none,
      completed_at := none,
      started_at := none,
      updated_at := o.clock } }

/-! ### The per-run event loop (`process_events`, orchestrator.py:177-201)

The loop pops `(event_name, kwargs)` pairs from the FIFO queue.  The unknown-
event test is `hasattr(self, event_name)` (line 190): any attribute name of
the orchestrator object — trigger methods generated by `Machine`, ordinary
methods, and plain data fields alike — passes the test and is then called
with the event's kwargs; only a name that is no attribute at all is logged
and discarded.  Any exception raised by the call is caught by the loop's
`except` clause, which enqueues a `fail` event carrying the error text. -/

/-- What invoking an attribute of the orchestrator with an event's kwargs
does.  Classified from the source: the seven `Machine`-generated trigger
methods fire transitions; `_transition_to_next_state` fires the next trigger
synchronously; zero-argument callables (`get_status`, `get_next_trigger`,
`_load_workflow`) and zero-argument async methods (`process_events`,
`advance_to_next_state` — their call builds a coroutine that is never
awaited) return without touching the run state; methods with required
positional parameters (`emit_event`, the `_on_*` handlers, `_log_transition`,
the `execute_*` methods) and non-callable data fields raise `TypeError` when
called this way. -/
inductive AttrKind where
  | triggerAttr
  | nextStateAttr
  | readOnlyAttr
  | raisingAttr
deriving DecidableEq, Repr

/-- The attribute names of a `WorkflowOrchestrator` object, with the effect of
calling each with an event's kwargs.  From the class body (orchestrator.py)
plus the attributes `transitions.Machine` attaches to its model (the seven
trigger methods, `state`, and the `is_<STATE>` checks).  Double-underscore
attributes inherited from `object` are omitted. -/
def orchAttrs : List (String × AttrKind) :=
  [ ("prepare", .triggerAttr), ("execute", .triggerAttr),
    ("validate", .triggerAttr), ("complete", .triggerAttr),
    ("fail", .triggerAttr), ("cancel", .triggerAttr), ("retry", .triggerAttr),
    ("_transition_to_next_state", .nextStateAttr),
    ("get_status", .readOnlyAttr), ("get_next_trigger", .readOnlyAttr),
    ("_load_workflow", .readOnlyAttr),
    ("process_events", .readOnlyAttr), ("advance_to_next_state", .readOnlyAttr),
    ("emit_event", .raisingAttr), ("execute_workflow", .raisingAttr),
    ("execute_automatic", .raisingAttr), ("execute_next_step", .raisingAttr),
    ("_log_transition", .raisingAttr), ("_on_state_enter", .raisingAttr),
    ("_on_complete", .raisingAttr), ("_on_fail", .raisingAttr),
    ("_on_cancel", .raisingAttr), ("_on_retry", .raisingAttr),
    ("workflow_id", .raisingAttr), ("db", .raisingAttr),
    ("workflow_dao", .raisingAttr), ("transition_dao", .raisingAttr),
    ("workflow", .raisingAttr), ("transitions", .raisingAttr),
    ("machine", .raisingAttr), ("states", .raisingAttr),
    ("STATE_TASKS", .raisingAttr), ("_event_queue", .raisingAttr),
    ("_running", .raisingAttr), ("_task_results", .raisingAttr),
    ("state", .raisingAttr),
    ("is_INIT", .readOnlyAttr), ("is_PREPARE", .readOnlyAttr),
    ("is_EXECUTE", .readOnlyAttr), ("is_VALIDATE", .readOnlyAttr),
    ("is_COMPLETE", .readOnlyAttr), ("is_FAILED", .readOnlyAttr),
    ("is_CANCELLED", .readOnlyAttr) ]

/-- `hasattr(self, event_name)` together with `getattr`: the behavior of the
named attribute, or `none` when the orchestrator has no such attribute. -/
def lookupAttr (name : String) : Option AttrKind :=
  (orchAttrs.find? (fun p => p.1 == name)).map (fun p => p.2)

/-- `await self.emit_event('fail', error=str(e))` from the loop's `except`
clause (orchestrator.py:201): append a `fail` event to the queue. -/
def enqueueFail (o : Orch) (msg : String) : Orch :=
  { o with queue := o.queue ++ [⟨"fail", some msg⟩] }

/-- `getattr(self, event_name)(**kwargs)` (orchestrator.py:191-192). -/
def invokeAttr (o : Orch) (name : String) (k : AttrKind) (err : Option String) :
    Except String Orch :=
  match k with
  | .triggerAttr =>
    match fireTriggerTotal o name err with
    | (o1, none) => .ok o1
    | (_, some e) => .error (fireErrorText e)
  | .nextStateAttr =>
    match transitionToNextState o with
    | (o1, none) => .ok o1
    | (_, some e) => .error (fireErrorText e)
  | .readOnlyAttr => .ok o
  | .raisingAttr => .error "TypeError: bad call arguments"

/-- Whether the loop body discarded the event (the `else` branch of the
`hasattr` test) or invoked an attribute for it. -/
inductive StepOutcome where
  | invokedAttr
  | discardedEvent
deriving DecidableEq, Repr

/-- Result of one loop-body iteration: the next run state, whether an
exception was caught (and a `fail` event therefore enqueued), and which
branch of the `hasattr` test ran. -/
structure StepRes where
  next : Orch
  raised : Bool
  outcome : StepOutcome
deriving DecidableEq, Repr

/-- One iteration of the `process_events` body on a dequeued event
(orchestrator.py:188-201). -/
def stepEvent (o : Orch) (ev : Event) : StepRes :=
  match lookupAttr ev.name with
  | none => ⟨o, false, .discardedEvent⟩
  | some k =>
    match invokeAttr o ev.name k ev.error with
    | .ok o1 => ⟨o1, false, .invokedAttr⟩
    | .error msg => ⟨enqueueFail o msg, true, .invokedAttr⟩

/-- The event loop, run until the queue is empty or the fuel runs out (the
real loop repeats on its 1-second poll timeout until `_running` is cleared;
what it does is determined by the events it dequeues).  The boolean records
whether any iteration caught an exception. -/
def runLoop : Nat → Orch → Orch × Bool
  | 0, o => (o, false)
  | Nat.succ f, o =>
    match o.queue with
    | [] => (o, false)
    | ev :: rest =>
      let r := stepEvent { o with queue := rest } ev
      let p := runLoop f r.next
      (p.1, r.raised || p.2)

/-- Fuel for draining the events produced by one `execute_*` step; each step
enqueues at most one event, and an exception re-enqueues at most one `fail`. -/
def drainFuel : Nat := 8

/-- Drain the pending queue: the events already enqueued are picked up and
applied by the concurrently running `process_events` task before the caller
proceeds (during the inter-step `asyncio.sleep(2)` or the final
`await event_task`). -/
def drain (o : Orch) : Orch :=
  (runLoop drainFuel o).1

/-! ### Automatic and single-step execution (orchestrator.py:222-364) -/

/-- The outcome the façade reads from a submitted state task's future:
`result.get('success', False)` and `result.get('error', 'Task execution
failed')` (orchestrator.py:269-271).  Passed as an oracle so that runs with
and without injected task failures can both be stated. -/
structure TaskOutcome where
  success : Bool
  error : String
deriving DecidableEq, Repr

/-- `workflow_sequence` (orchestrator.py:234). -/
def seqStates : List WState := [.INIT, .PREPARE, .EXECUTE, .VALIDATE, .COMPLETE]

/-- `workflow_sequence[workflow_sequence.index(self.state):]`
(orchestrator.py:235,240); `none` models the `ValueError` that
`.index` raises when the current state is not in the sequence. -/
def seqFrom (s : WState) : Option (List WState) :=
  match seqStates.indexOf? s with
  | some i => some (seqStates.drop i)
  | none => none

/-- The per-state loop of `execute_automatic` (orchestrator.py:240-284):
for `COMPLETE`, enqueue the final trigger and break; otherwise run the
state's task, on failure enqueue `fail` and return `False`, on success store
the result, enqueue the advancing trigger, and let the event task apply it
during the settle delay. -/
def executeAutoGo (outcome : WState → TaskOutcome) :
    List WState → Orch → Orch × Bool
  | [], o => (o, true)
  | s :: rest, o =>
    if s == .COMPLETE then
      (drain (advanceToNextState o), true)
    else
      let r := outcome s
      if r.success then
        let o1 := { o with taskResults := o.taskResults ++ [s] }
        let o2 := drain (advanceToNextState o1)
        executeAutoGo outcome rest o2
      else
        (drain (enqueueFail o r.error), false)

/-- `execute_automatic` (orchestrator.py:222-296).  The `none` branch of
`seqFrom` models the outer `except` clause: `.index` raises from a state
outside the linear sequence, a `fail` event is enqueued and `False`
returned. -/
def executeAutomatic (o : Orch) (outcome : WState → TaskOutcome) :
    Orch × Bool :=
  match seqFrom o.machineState with
  | some states => executeAutoGo outcome states o
  | none => (drain (enqueueFail o "ValueError"), false)

/-- `execute_next_step` (orchestrator.py:298-364): refuse in a terminal
state, otherwise run exactly one task-and-transition cycle. -/
def executeNextStep (o : Orch) (outcome : WState → TaskOutcome) :
    Orch × Bool :=
  if isTerminal o.machineState then (o, false)
  else
    let r := outcome o.machineState
    if r.success then
      let o1 := { o with taskResults := o.taskResults ++ [o.machineState] }
      (drain (advanceToNextState o1), true)
    else
      (drain (enqueueFail o r.error), false)

/-- A freshly created workflow row (db/models.py column defaults: status
INIT, current_state "INIT", retries 0, no timestamps, no error). -/
def freshWorkflow : Workflow :=
  { status := .INIT, current_state := .INIT, retries := 0,
    started_at := none, completed_at := none, error_message := none,
    updated_at := 0 }

/-- `WorkflowOrchestrator.__init__` (orchestrator.py:36-68): the machine is
initialized at the persisted `status` value, with an empty event queue and an
empty in-memory results map; `log` carries the workflow's existing transition
rows. -/
def mkOrch (w : Workflow) (log : List TransitionRecord) : Orch :=
  { machineState := w.status, workflow := w, log := log, queue := [],
    taskResults := [], clock := 0 }

/-- An oracle under which no task reports failure. -/
def allSuccess : WState → TaskOutcome := fun _ => ⟨true, ""⟩

end Orchestrator

namespace WorkerManager

/-! ### Worker task dispatch (`src/core/worker_manager.py`)

The thread-pool mechanics (`ThreadPoolExecutor`, futures, per-thread
sessions) are concurrency infrastructure; the dispatch logic the claims are
about is the pure case analysis on `task_type`. -/

/-- The configuration payload keys the task bodies read
(`config.get("iterations", ...)`, `config.get("duration", 1)`,
`config.get("url", "")`). -/
structure TaskConfig where
  iterations : Option Nat
  duration : Option Nat
  url : Option String
deriving DecidableEq, Repr

/-- `sum(i * i for i in range(n))` (worker_manager.py:121,280). -/
def sumOfSquares (n : Nat) : Nat :=
  (List.range n).foldl (fun acc i => acc + i * i) 0

/-- The value returned by each branch of `_run_workflow_task_logic`
(worker_manager.py:85-161), keeping the payload fields that distinguish the
branches (the wall-clock `timestamp` entries are omitted). -/
inductive WorkflowTaskBody where
  | initDone
  | prepared (files_created : Nat)
  | executedBody (computation_result : Nat) (iterations : Nat)
  | validatedBody (validation_passed : Bool) (checks_performed : Nat)
  | finalized
  | defaultRun (task_type : String)
deriving DecidableEq, Repr

/-- `_run_workflow_task_logic` (worker_manager.py:85-161): dispatch on
`task_type`, with the final `else` branch executing a no-op "default task". -/
def runWorkflowTaskLogic (task_type : String) (config : TaskConfig) :
    WorkflowTaskBody :=
  if task_type == "initialize" then
    .initDone
  else if task_type == "prepare" then
    .prepared 3
  else if task_type == "execute" then
    let iters := config.iterations.getD 5000
    .executedBody (sumOfSquares iters) iters
  else if task_type == "validate" then
    .validatedBody true 5
  else if task_type == "complete" then
    .finalized
  else
    .defaultRun task_type

/-- The recognized workflow task types (the five dispatch branches). -/
def workflowTaskTypes : List String :=
  ["initialize", "prepare", "execute", "validate", "complete"]

/-- The dict returned by `_execute_workflow_task` (worker_manager.py:60-83):
the task logic's value wrapped as a success, or the exception text wrapped as
a failure.  The embedded task bodies are total, matching the source bodies,
which only sleep, build dicts, and sum integers. -/
structure WorkflowTaskOutcome where
  success : Bool
  result : Option WorkflowTaskBody
  error : Option String
  task_type : String
deriving DecidableEq, Repr

/-- `_execute_workflow_task` (worker_manager.py:60-83). -/
def executeWorkflowTask (task_type : String) (config : TaskConfig) :
    WorkflowTaskOutcome :=
  { success := true,
    result := some (runWorkflowTaskLogic task_type config),
    error := none,
    task_type := task_type }

/-- The value returned by each branch of `_run_task_logic`
(worker_manager.py:252-292). -/
inductive GenericTaskBody where
  | sleptFor (duration : Nat)
  | computed (result : Nat)
  | httpSimulated (url : String)
  | noopDone (task_type : String)
deriving DecidableEq, Repr

/-- `_run_task_logic` (worker_manager.py:252-292): dispatch on the task's
`task_type`, with the final `else` branch executing a no-op. -/
def runTaskLogic (task_type : String) (config : TaskConfig) :
    GenericTaskBody :=
  if task_type == "sleep" then
    .sleptFor (config.duration.getD 1)
  else if task_type == "compute" then
    .computed (sumOfSquares (config.iterations.getD 1000))
  else if task_type == "http_request" then
    .httpSimulated (config.url.getD "")
  else
    .noopDone task_type

/-- The recognized generic task types (the three dispatch branches). -/
def genericTaskTypes : List String := ["sleep", "compute", "http_request"]

end WorkerManager

namespace Orchestrator

/-- A workflow row that has just failed: the shape `_on_fail` leaves behind
(status FAILED, error recorded, completion timestamp set). -/
def failedWorkflow : Workflow :=
  { status := .FAILED, current_state := .FAILED, retries := 0,
    started_at := some 0, completed_at := some 5,
    error_message := some "boom", updated_at := 6 }

/-- C1 — code bug.  The spec says `retry()` on a FAILED instance increments
`retries`, clears `error_message` and the timestamps, and moves to INIT.  The
class defines `_on_retry` (orchestrator.py:138-148) doing exactly that, but
the `retry` row of the transition table (orchestrator.py:53) names no
callbacks, so the generated `retry()` trigger only moves the in-memory
machine to INIT: the persisted record keeps `retries = 0`, the error text,
both timestamps, and even `status = current_state = FAILED`.  The dead
handler `applyOnRetry` performs the documented update, witnessing the
intent. -/
theorem C1_retry_trigger_skips_handler :
    (fireTriggerTotal (mkOrch failedWorkflow []) "retry" none).2 = none ∧
    (fireTriggerTotal (mkOrch failedWorkflow []) "retry" none).1.machineState
      = WState.INIT ∧
    (fireTriggerTotal (mkOrch failedWorkflow []) "retry" none).1.workflow
      = failedWorkflow ∧
    (fireTriggerTotal (mkOrch failedWorkflow []) "retry" none).1.log = [] ∧
    (applyOnRetry (mkOrch failedWorkflow [])).workflow.retries = 1 ∧
    (applyOnRetry (mkOrch failedWorkflow [])).workflow.error_message = none ∧
    (applyOnRetry (mkOrch failedWorkflow [])).workflow.completed_at = none ∧
    (applyOnRetry (mkOrch failedWorkflow [])).workflow.started_at = none :=
  ⟨rfl, rfl, rfl, rfl, rfl, rfl, rfl, rfl⟩

/-- C2 — counterexample.  FAILED is terminal, yet `get_next_trigger` returns
`retry` for it, because the `retry` row's source is the single string
`FAILED` and so compares equal to the state; and the INIT state is contained
in the declared source sets of three table entries (`prepare`, `fail`,
`cancel`), not exactly one. -/
theorem C2_counterexample :
    isTerminal WState.FAILED = true ∧
    nextTrigger WState.FAILED = some "retry" ∧
    countSourceContains WState.INIT = 3 :=
  ⟨rfl, rfl, rfl⟩

/-- C2 — amended.  The uniqueness `get_next_trigger` relies on is uniqueness
of the table entry whose *raw* source compares equal to the state (a
list-valued source never compares equal to a state string), not uniqueness
of source-set membership.  Under that comparison each of the four linear
states selects its advancing trigger, COMPLETE and CANCELLED have none, and
FAILED selects `retry`. -/
theorem C2_next_trigger_table :
    (transitionsTable.filter
      (fun t => sourceEqState t.source WState.INIT)).length = 1 ∧
    (transitionsTable.filter
      (fun t => sourceEqState t.source WState.PREPARE)).length = 1 ∧
    (transitionsTable.filter
      (fun t => sourceEqState t.source WState.EXECUTE)).length = 1 ∧
    (transitionsTable.filter
      (fun t => sourceEqState t.source WState.VALIDATE)).length = 1 ∧
    nextTrigger WState.INIT = some "prepare" ∧
    nextTrigger WState.PREPARE = some "execute" ∧
    nextTrigger WState.EXECUTE = some "validate" ∧
    nextTrigger WState.VALIDATE = some "complete" ∧
    nextTrigger WState.COMPLETE = none ∧
    nextTrigger WState.CANCELLED = none ∧
    nextTrigger WState.FAILED = some "retry" :=
  ⟨rfl, rfl, rfl, rfl, rfl, rfl, rfl, rfl, rfl, rfl, rfl⟩

/-- C3.  Firing any declared trigger from a state outside its declared
source set raises `MachineError` (the spec's InvalidTransition) and returns
the run state — machine state, persisted workflow row, and transition log —
exactly as it was. -/
theorem C3_invalid_trigger_rejected (o : Orch) (name : String)
    (err : Option String) (t : TransitionDef)
    (ht : findTransition name = some t)
    (hs : stateInSource o.machineState t.source = false) :
    fireTriggerTotal o name err =
      (o, some (.invalidTransition name o.machineState)) := by
  unfold fireTriggerTotal
  rw [ht]
  simp [hs]

/-- C3 — witness: firing `retry` from the fresh INIT state. -/
theorem C3_invalid_trigger_rejected_witness :
    findTransition "retry" =
      some ⟨"retry", .single .FAILED, .INIT, none, none⟩ ∧
    stateInSource (mkOrch freshWorkflow []).machineState
      (TSource.single .FAILED) = false ∧
    fireTriggerTotal (mkOrch freshWorkflow []) "retry" none =
      (mkOrch freshWorkflow [],
       some (.invalidTransition "retry" WState.INIT)) :=
  ⟨rfl, rfl,
   C3_invalid_trigger_rejected (mkOrch freshWorkflow []) "retry" none
     ⟨"retry", .single .FAILED, .INIT, none, none⟩ rfl rfl⟩

/-- C7 — counterexample.  The event name `_transition_to_next_state` is not
one of the seven declared triggers, yet the loop does not discard it: the
`hasattr` test passes, the method is invoked, and on a fresh INIT instance it
fires the `prepare` transition, changing the machine state and appending a
transition record. -/
theorem C7_counterexample :
    ("_transition_to_next_state" ∉ declaredTriggerNames) ∧
    (stepEvent (mkOrch freshWorkflow [])
        ⟨"_transition_to_next_state", none⟩).outcome = .invokedAttr ∧
    (stepEvent (mkOrch freshWorkflow [])
        ⟨"_transition_to_next_state", none⟩).next.machineState
      = WState.PREPARE ∧
    (mkOrch freshWorkflow []).machineState = WState.INIT ∧
    (stepEvent (mkOrch freshWorkflow [])
        ⟨"_transition_to_next_state", none⟩).next.log ≠
      (mkOrch freshWorkflow []).log := by
  refine ⟨by decide, rfl, rfl, rfl, by decide⟩

/-- C7 — amended.  The loop discards exactly the events whose name is not an
attribute of the orchestrator object; such an event is logged and dropped,
leaving the machine state, the persisted instance, the transition log and
the queue unchanged, raising nothing, and the loop continues.  An event
name outside the seven triggers that does match an attribute (such as
`_transition_to_next_state`) is invoked instead of being discarded. -/
theorem C7_unknown_event_discarded (o : Orch) (ev : Event)
    (h : lookupAttr ev.name = none) :
    stepEvent o ev = ⟨o, false, .discardedEvent⟩ := by
  unfold stepEvent
  rw [h]

/-- C7 — witness: an event with a made-up name is discarded. -/
theorem C7_unknown_event_discarded_witness :
    lookupAttr "bogus_event" = none ∧
    stepEvent (mkOrch freshWorkflow []) ⟨"bogus_event", none⟩ =
      ⟨mkOrch freshWorkflow [], false, .discardedEvent⟩ :=
  ⟨by decide,
   C7_unknown_event_discarded (mkOrch freshWorkflow [])
     ⟨"bogus_event", none⟩ (by decide)⟩

/-- C8.  The loop's unknown-event test is attribute existence: an event is
discarded iff its name is no attribute of the orchestrator.  Names matching
existing non-trigger attributes are invoked with the event's kwargs:
`get_status` is callable and runs, `_transition_to_next_state` fires a real
transition (INIT to PREPARE on a fresh instance), and `emit_event` (whose
required positional argument is missing) raises. -/
theorem C8_dispatch_is_attribute_lookup :
    (∀ (o : Orch) (ev : Event),
      (stepEvent o ev).outcome = .discardedEvent ↔ lookupAttr ev.name = none) ∧
    lookupAttr "get_status" = some .readOnlyAttr ∧
    lookupAttr "emit_event" = some .raisingAttr ∧
    lookupAttr "_transition_to_next_state" = some .nextStateAttr ∧
    (stepEvent (mkOrch freshWorkflow [])
        ⟨"_transition_to_next_state", none⟩).next.machineState
      = WState.PREPARE ∧
    (stepEvent (mkOrch freshWorkflow []) ⟨"emit_event", none⟩).raised = true := by
  refine ⟨?_, rfl, rfl, rfl, rfl, rfl⟩
  intro o ev
  cases h : lookupAttr ev.name with
  | none => simp [stepEvent, h]
  | some k =>
    cases hi : invokeAttr o ev.name k ev.error with
    | ok o1 => simp [stepEvent, h, hi]
    | error m => simp [stepEvent, h, hi]

/-- Auxiliary for C4: the run of `execute_automatic` is determined by the
success flags alone; when every task reports success the run coincides with
the run under the canonical all-success oracle. -/
theorem executeAutoGo_outcome_irrel (outcome : WState → TaskOutcome)
    (h : ∀ s, (outcome s).success = true) :
    ∀ (l : List WState) (o : Orch),
      executeAutoGo outcome l o = executeAutoGo allSuccess l o := by
  intro l
  induction l with
  | nil => intro o; rfl
  | cons s rest ih =>
    intro o
    by_cases hc : (s == WState.COMPLETE) = true
    · simp only [executeAutoGo, hc, if_true]
    · simp only [executeAutoGo, hc, if_false, Bool.false_eq_true, h s,
        allSuccess, if_true]
      exact ih _

/-- C4.  `execute_automatic` on a fresh INIT instance, when no task reports
failure, returns `True`, ends in machine state COMPLETE, and appends exactly
four transition records, in order INIT to PREPARE, PREPARE to EXECUTE,
EXECUTE to VALIDATE, VALIDATE to COMPLETE, with strictly increasing creation
timestamps. -/
theorem C4_execute_automatic_completes (outcome : WState → TaskOutcome)
    (h : ∀ s, (outcome s).success = true) :
    (executeAutomatic (mkOrch freshWorkflow []) outcome).2 = true ∧
    (executeAutomatic (mkOrch freshWorkflow []) outcome).1.machineState
      = WState.COMPLETE ∧
    (executeAutomatic (mkOrch freshWorkflow []) outcome).1.log.map
        (fun r => (r.from_state, r.to_state, r.trigger)) =
      [(WState.INIT, WState.PREPARE, "prepare"),
       (WState.PREPARE, WState.EXECUTE, "execute"),
       (WState.EXECUTE, WState.VALIDATE, "validate"),
       (WState.VALIDATE, WState.COMPLETE, "complete")] ∧
    List.Chain' (fun a b => a < b)
      ((executeAutomatic (mkOrch freshWorkflow []) outcome).1.log.map
        (fun r => r.created_at)) := by
  have e : executeAutomatic (mkOrch freshWorkflow []) outcome =
      executeAutomatic (mkOrch freshWorkflow []) allSuccess := by
    show executeAutoGo outcome seqStates (mkOrch freshWorkflow []) =
      executeAutoGo allSuccess seqStates (mkOrch freshWorkflow [])
    exact executeAutoGo_outcome_irrel outcome h seqStates
      (mkOrch freshWorkflow [])
  rw [e]
  refine ⟨rfl, rfl, rfl, ?_⟩
  have hm : (executeAutomatic (mkOrch freshWorkflow []) allSuccess).1.log.map
      (fun r => r.created_at) = [3, 6, 9, 14] := rfl
  rw [hm]
  norm_num [List.chain'_cons]

/-- C4 — witness: the all-success oracle. -/
theorem C4_execute_automatic_completes_witness :
    (executeAutomatic (mkOrch freshWorkflow []) allSuccess).2 = true ∧
    (executeAutomatic (mkOrch freshWorkflow []) allSuccess).1.machineState
      = WState.COMPLETE :=
  ⟨(C4_execute_automatic_completes allSuccess (fun _ => rfl)).1,
   (C4_execute_automatic_completes allSuccess (fun _ => rfl)).2.1⟩

/-- The persisted-record invariant of C5: `status == current_state`. -/
def statusInv (o : Orch) : Prop :=
  o.workflow.status = o.workflow.current_state

/-- Each callback either leaves both `status` and `current_state` untouched
or (for `_log_transition`) sets both to the destination state. -/
theorem runHook_status_pair (h : Hook) (src dst : WState) (trig : String)
    (err : Option String) (o : Orch) :
    ((runHook h src dst trig err o).workflow.status = o.workflow.status ∧
     (runHook h src dst trig err o).workflow.current_state
       = o.workflow.current_state) ∨
    ((runHook h src dst trig err o).workflow.status = dst ∧
     (runHook h src dst trig err o).workflow.current_state = dst) := by
  cases h
  case onStateEnter =>
    cases hs : o.workflow.started_at <;> simp [runHook, hs]
  all_goals simp [runHook]

theorem runHookOpt_status_pair (h : Option Hook) (src dst : WState)
    (trig : String) (err : Option String) (o : Orch) :
    ((runHookOpt h src dst trig err o).workflow.status = o.workflow.status ∧
     (runHookOpt h src dst trig err o).workflow.current_state
       = o.workflow.current_state) ∨
    ((runHookOpt h src dst trig err o).workflow.status = dst ∧
     (runHookOpt h src dst trig err o).workflow.current_state = dst) := by
  cases h with
  | none => exact Or.inl ⟨rfl, rfl⟩
  | some hk => exact runHook_status_pair hk src dst trig err o

theorem statusInv_runHookOpt (h : Option Hook) (src dst : WState)
    (trig : String) (err : Option String) (o : Orch)
    (hi : statusInv o) : statusInv (runHookOpt h src dst trig err o) := by
  rcases runHookOpt_status_pair h src dst trig err o with ⟨h1, h2⟩ | ⟨h1, h2⟩
  · unfold statusInv at *
    rw [h1, h2]; exact hi
  · unfold statusInv
    rw [h1, h2]

/-- Trigger firing either leaves the status pair untouched (illegal trigger,
missing trigger, or the callback-free `retry` row) or sets both fields to the
fired transition's destination. -/
theorem fireTrigger_status_pair (o : Orch) (name : String)
    (err : Option String) :
    ((fireTriggerTotal o name err).1.workflow.status = o.workflow.status ∧
     (fireTriggerTotal o name err).1.workflow.current_state
       = o.workflow.current_state) ∨
    (∃ t, findTransition name = some t ∧
      (fireTriggerTotal o name err).1.workflow.status = t.dest ∧
      (fireTriggerTotal o name err).1.workflow.current_state = t.dest) := by
  unfold fireTriggerTotal
  cases ht : findTransition name with
  | none => exact Or.inl ⟨rfl, rfl⟩
  | some t =>
    by_cases hs : stateInSource o.machineState t.source
    · simp only [hs, if_true]
      set o1 := runHookOpt t.before o.machineState t.dest name err o with ho1
      have hb := runHookOpt_status_pair t.before o.machineState t.dest name err o
      have ha := runHookOpt_status_pair t.after o.machineState t.dest name err
        { o1 with machineState := t.dest }
      rw [← ho1] at hb
      rcases ha with ⟨a1, a2⟩ | ⟨a1, a2⟩
      · rcases hb with ⟨b1, b2⟩ | ⟨b1, b2⟩
        · exact Or.inl ⟨by rw [a1]; exact b1, by rw [a2]; exact b2⟩
        · exact Or.inr ⟨t, rfl, by rw [a1]; exact b1, by rw [a2]; exact b2⟩
      · exact Or.inr ⟨t, rfl, a1, a2⟩
    · simp only [hs, if_false]
      exact Or.inl ⟨rfl, rfl⟩

theorem statusInv_fireTrigger (o : Orch) (name : String) (err : Option String)
    (h : statusInv o) : statusInv (fireTriggerTotal o name err).1 := by
  rcases fireTrigger_status_pair o name err with ⟨h1, h2⟩ | ⟨t, _, h1, h2⟩
  · unfold statusInv at *; rw [h1, h2]; exact h
  · unfold statusInv; rw [h1, h2]

theorem statusInv_transitionToNextState (o : Orch) (h : statusInv o) :
    statusInv (transitionToNextState o).1 := by
  unfold transitionToNextState
  cases nextTrigger o.machineState with
  | none => exact h
  | some t => exact statusInv_fireTrigger o t none h

theorem statusInv_invokeAttr_ok (o : Orch) (name : String) (k : AttrKind)
    (err : Option String) (o1 : Orch)
    (heq : invokeAttr o name k err = .ok o1) (h : statusInv o) :
    statusInv o1 := by
  cases k with
  | triggerAttr =>
    unfold invokeAttr at heq
    cases hf : fireTriggerTotal o name err with
    | mk a b =>
      rw [hf] at heq
      cases b with
      | none =>
        simp only [Except.ok.injEq] at heq
        have := statusInv_fireTrigger o name err h
        rw [hf] at this
        rw [← heq]
        exact this
      | some e => simp at heq
  | nextStateAttr =>
    unfold invokeAttr at heq
    cases hf : transitionToNextState o with
    | mk a b =>
      rw [hf] at heq
      cases b with
      | none =>
        simp only [Except.ok.injEq] at heq
        have := statusInv_transitionToNextState o h
        rw [hf] at this
        rw [← heq]
        exact this
      | some e => simp at heq
  | readOnlyAttr =>
    simp only [invokeAttr, Except.ok.injEq] at heq
    rw [← heq]; exact h
  | raisingAttr => simp [invokeAttr] at heq

theorem statusInv_stepEvent (o : Orch) (ev : Event) (h : statusInv o) :
    statusInv (stepEvent o ev).next := by
  unfold stepEvent
  split
  · exact h
  next k hl =>
    split
    next o1 hi => exact statusInv_invokeAttr_ok o ev.name k ev.error o1 hi h
    next m hi => exact h

theorem statusInv_runLoop (fuel : Nat) :
    ∀ o : Orch, statusInv o → statusInv (runLoop fuel o).1 := by
  induction fuel with
  | zero => intro o h; exact h
  | succ f ih =>
    intro o h
    unfold runLoop
    cases o.queue with
    | nil => exact h
    | cons ev rest =>
      exact ih _ (statusInv_stepEvent _ ev h)

theorem statusInv_drain (o : Orch) (h : statusInv o) : statusInv (drain o) :=
  statusInv_runLoop drainFuel o h

theorem statusInv_advance (o : Orch) (h : statusInv o) :
    statusInv (advanceToNextState o) := by
  unfold advanceToNextState
  cases nextTrigger o.machineState with
  | none => exact h
  | some t => exact h

theorem statusInv_executeAutoGo (oc : WState → TaskOutcome) :
    ∀ (l : List WState) (o : Orch), statusInv o →
      statusInv (executeAutoGo oc l o).1 := by
  intro l
  induction l with
  | nil => intro o h; exact h
  | cons s rest ih =>
    intro o h
    unfold executeAutoGo
    by_cases hc : (s == WState.COMPLETE) = true
    · simp only [hc, if_true]
      exact statusInv_drain _ (statusInv_advance _ h)
    · simp only [hc, Bool.false_eq_true, if_false]
      by_cases hr : (oc s).success = true
      · simp only [hr, if_true]
        exact ih _ (statusInv_drain _ (statusInv_advance _ h))
      · simp only [hr, Bool.false_eq_true, if_false]
        exact statusInv_drain _ h

theorem statusInv_executeAutomatic (o : Orch) (oc : WState → TaskOutcome)
    (h : statusInv o) : statusInv (executeAutomatic o oc).1 := by
  unfold executeAutomatic
  cases seqFrom o.machineState with
  | none => exact statusInv_drain _ h
  | some l => exact statusInv_executeAutoGo oc l o h

theorem statusInv_executeNextStep (o : Orch) (oc : WState → TaskOutcome)
    (h : statusInv o) : statusInv (executeNextStep o oc).1 := by
  unfold executeNextStep
  by_cases ht : isTerminal o.machineState = true
  · simp only [ht, if_true]; exact h
  · simp only [ht, Bool.false_eq_true, if_false]
    by_cases hr : (oc o.machineState).success = true
    · simp only [hr, if_true]
      exact statusInv_drain _ (statusInv_advance _ h)
    · simp only [hr, Bool.false_eq_true, if_false]
      exact statusInv_drain _ h

theorem runHook_queue (h : Hook) (src dst : WState) (trig : String)
    (err : Option String) (o : Orch) :
    (runHook h src dst trig err o).queue = o.queue := by
  cases h
  case onStateEnter => cases hs : o.workflow.started_at <;> simp [runHook, hs]
  all_goals simp [runHook]

theorem runHook_machineState (h : Hook) (src dst : WState) (trig : String)
    (err : Option String) (o : Orch) :
    (runHook h src dst trig err o).machineState = o.machineState := by
  cases h
  case onStateEnter => cases hs : o.workflow.started_at <;> simp [runHook, hs]
  all_goals simp [runHook]

theorem runHookOpt_queue (h : Option Hook) (src dst : WState) (trig : String)
    (err : Option String) (o : Orch) :
    (runHookOpt h src dst trig err o).queue = o.queue := by
  cases h with
  | none => rfl
  | some hk => exact runHook_queue hk src dst trig err o

theorem runHookOpt_machineState (h : Option Hook) (src dst : WState)
    (trig : String) (err : Option String) (o : Orch) :
    (runHookOpt h src dst trig err o).machineState = o.machineState := by
  cases h with
  | none => rfl
  | some hk => exact runHook_machineState hk src dst trig err o

/-- A legal trigger firing does not touch the event queue. -/
theorem fireTrigger_queue (o : Orch) (name : String) (err : Option String) :
    (fireTriggerTotal o name err).1.queue = o.queue := by
  unfold fireTriggerTotal
  cases ht : findTransition name with
  | none => rfl
  | some t =>
    by_cases hs : stateInSource o.machineState t.source
    · simp only [hs, if_true]
      rw [runHookOpt_queue]
      exact runHookOpt_queue _ _ _ _ _ _
    · simp [hs]

theorem transitionToNextState_queue (o : Orch) :
    (transitionToNextState o).1.queue = o.queue := by
  unfold transitionToNextState
  cases nextTrigger o.machineState with
  | none => rfl
  | some t => exact fireTrigger_queue o t none

/-- A successful attribute invocation leaves the queue unchanged. -/
theorem invokeAttr_ok_queue (o : Orch) (name : String) (k : AttrKind)
    (err : Option String) (o1 : Orch)
    (heq : invokeAttr o name k err = .ok o1) : o1.queue = o.queue := by
  cases k with
  | triggerAttr =>
    unfold invokeAttr at heq
    cases hf : fireTriggerTotal o name err with
    | mk a b =>
      rw [hf] at heq
      cases b with
      | none =>
        simp only [Except.ok.injEq] at heq
        have := fireTrigger_queue o name err
        rw [hf] at this
        rw [← heq]
        exact this
      | some e => simp at heq
  | nextStateAttr =>
    unfold invokeAttr at heq
    cases hf : transitionToNextState o with
    | mk a b =>
      rw [hf] at heq
      cases b with
      | none =>
        simp only [Except.ok.injEq] at heq
        have := transitionToNextState_queue o
        rw [hf] at this
        rw [← heq]
        exact this
      | some e => simp at heq
  | readOnlyAttr =>
    simp only [invokeAttr, Except.ok.injEq] at heq
    rw [← heq]
  | raisingAttr => simp [invokeAttr] at heq

/-- One loop iteration either raises nothing and leaves the queue as it was,
or catches an exception and appends exactly one `fail` event. -/
theorem stepEvent_queue (o : Orch) (ev : Event) :
    ((stepEvent o ev).raised = false ∧ (stepEvent o ev).next.queue = o.queue) ∨
    ((stepEvent o ev).raised = true ∧ ∃ m,
      (stepEvent o ev).next.queue = o.queue ++ [⟨"fail", some m⟩]) := by
  unfold stepEvent
  split
  · exact Or.inl ⟨rfl, rfl⟩
  next k hl =>
    split
    next o1 hi => exact Or.inl ⟨rfl, invokeAttr_ok_queue o ev.name k ev.error o1 hi⟩
    next m hi => exact Or.inr ⟨rfl, m, rfl⟩

/-- Processing a `fail` event without an exception lands in FAILED. -/
theorem stepEvent_fail_ok (o : Orch) (e : Option String)
    (h : (stepEvent o ⟨"fail", e⟩).raised = false) :
    (stepEvent o ⟨"fail", e⟩).next.machineState = WState.FAILED := by
  have hl : lookupAttr "fail" = some .triggerAttr := rfl
  have hft : findTransition "fail" =
      some ⟨"fail", .multi [.INIT, .PREPARE, .EXECUTE, .VALIDATE], .FAILED,
        some .onFail, some .logTransition⟩ := rfl
  unfold stepEvent at h ⊢
  rw [hl] at h ⊢
  by_cases hs : stateInSource o.machineState
      (TSource.multi [.INIT, .PREPARE, .EXECUTE, .VALIDATE])
  · have hfire : (fireTriggerTotal o "fail" e).2 = none := by
      unfold fireTriggerTotal
      rw [hft]
      simp [hs]
    have hstate : (fireTriggerTotal o "fail" e).1.machineState
        = WState.FAILED := by
      unfold fireTriggerTotal
      rw [hft]
      simp only [hs, if_true]
      rw [runHookOpt_machineState]
    cases hf : fireTriggerTotal o "fail" e with
    | mk a b =>
      rw [hf] at hfire hstate
      simp only at hfire hstate
      subst hfire
      simp only [invokeAttr, hf]
      exact hstate
  · have hfire : fireTriggerTotal o "fail" e =
        (o, some (.invalidTransition "fail" o.machineState)) := by
      unfold fireTriggerTotal
      rw [hft]
      simp [hs]
    simp only [invokeAttr, hfire] at h
    exact absurd h (by simp)

/-- The loop finishes immediately on an empty queue. -/
theorem runLoop_empty (fuel : Nat) (o : Orch) (h : o.queue = []) :
    runLoop fuel o = (o, false) := by
  cases fuel with
  | zero => rfl
  | succ f => unfold runLoop; rw [h]

/-- If the queue ends with a `fail` event and the loop drains it without any
exception, the final machine state is FAILED. -/
theorem runLoop_lastFail (fuel : Nat) :
    ∀ (o : Orch) (q : List Event) (e : Option String),
      o.queue = q ++ [⟨"fail", e⟩] →
      (runLoop fuel o).2 = false →
      (runLoop fuel o).1.queue = [] →
      (runLoop fuel o).1.machineState = WState.FAILED := by
  induction fuel with
  | zero =>
    intro o q e hq hf he
    simp only [runLoop] at he
    rw [hq] at he
    simp at he
  | succ f ih =>
    intro o q e hq hf he
    unfold runLoop at hf he ⊢
    rw [hq] at hf he ⊢
    cases q with
    | nil =>
      simp only [List.nil_append] at hf he ⊢
      set o0 : Orch := { o with queue := [] } with ho0
      have hr : (stepEvent o0 ⟨"fail", e⟩).raised = false := by
        rcases Bool.or_eq_false_iff.mp hf with ⟨h1, _⟩
        exact h1
      have hstate := stepEvent_fail_ok o0 e hr
      have hqueue : (stepEvent o0 ⟨"fail", e⟩).next.queue = [] := by
        rcases stepEvent_queue o0 ⟨"fail", e⟩ with ⟨_, h2⟩ | ⟨h1, _⟩
        · exact h2
        · rw [hr] at h1; exact absurd h1 (by simp)
      rw [runLoop_empty f _ hqueue]
      exact hstate
    | cons ev q' =>
      simp only [List.cons_append] at hf he ⊢
      set o0 : Orch := { o with queue := q' ++ [⟨"fail", e⟩] } with ho0
      have hr : (stepEvent o0 ev).raised = false := by
        rcases Bool.or_eq_false_iff.mp hf with ⟨h1, _⟩
        exact h1
      have hf2 : (runLoop f (stepEvent o0 ev).next).2 = false := by
        rcases Bool.or_eq_false_iff.mp hf with ⟨_, h2⟩
        exact h2
      have hqueue : (stepEvent o0 ev).next.queue = q' ++ [⟨"fail", e⟩] := by
        rcases stepEvent_queue o0 ev with ⟨_, h2⟩ | ⟨h1, _⟩
        · exact h2
        · rw [hr] at h1; exact absurd h1 (by simp)
      exact ih (stepEvent o0 ev).next q' e hqueue hf2 he

/-- If the loop drains its queue and some iteration caught an exception, the
final machine state is FAILED. -/
theorem runLoop_error_failed (fuel : Nat) :
    ∀ o : Orch, (runLoop fuel o).1.queue = [] → (runLoop fuel o).2 = true →
      (runLoop fuel o).1.machineState = WState.FAILED := by
  induction fuel with
  | zero =>
    intro o h1 h2
    simp only [runLoop] at h2
    exact absurd h2 (by simp)
  | succ f ih =>
    intro o h1 h2
    unfold runLoop at h1 h2 ⊢
    cases hq : o.queue with
    | nil =>
      rw [hq] at h2
      exact absurd h2 (by simp)
    | cons ev rest =>
      rw [hq] at h1 h2
      simp only [] at h1 h2 ⊢
      set o0 : Orch := { o with queue := rest } with ho0
      cases hb : (runLoop f (stepEvent o0 ev).next).2 with
      | true => exact ih (stepEvent o0 ev).next h1 hb
      | false =>
        have hr : (stepEvent o0 ev).raised = true := by
          rw [hb] at h2
          simpa using h2
        rcases stepEvent_queue o0 ev with ⟨h3, _⟩ | ⟨_, m, h4⟩
        · rw [hr] at h3; exact absurd h3 (by simp)
        · exact runLoop_lastFail f (stepEvent o0 ev).next o0.queue (some m)
            h4 hb h1

/-- C6.  Any exception raised while applying a dequeued event is caught by
the loop and converted into a `fail` event appended to the same queue; and
whenever a run of the loop drains its queue after at least one caught
exception, it ends in a terminal machine state (in fact FAILED). -/
theorem C6_error_caught_reaches_terminal :
    (∀ (o : Orch) (ev : Event) (k : AttrKind) (msg : String),
      lookupAttr ev.name = some k →
      invokeAttr o ev.name k ev.error = .error msg →
      stepEvent o ev = ⟨enqueueFail o msg, true, .invokedAttr⟩) ∧
    (∀ (fuel : Nat) (o : Orch),
      (runLoop fuel o).1.queue = [] → (runLoop fuel o).2 = true →
      isTerminal (runLoop fuel o).1.machineState = true) := by
  constructor
  · intro o ev k msg hl hi
    unfold stepEvent
    rw [hl]
    simp only [hi]
  · intro fuel o h1 h2
    rw [runLoop_error_failed fuel o h1 h2]
    rfl

/-- C6 — witness: an illegal `complete` event on a fresh INIT instance is
caught, re-enqueued as `fail`, and the drained run ends terminal. -/
theorem C6_error_caught_reaches_terminal_witness :
    lookupAttr "complete" = some .triggerAttr ∧
    stepEvent (mkOrch freshWorkflow []) ⟨"complete", none⟩ =
      ⟨enqueueFail (mkOrch freshWorkflow [])
         (fireErrorText (.invalidTransition "complete" WState.INIT)),
       true, .invokedAttr⟩ ∧
    (runLoop 4 { mkOrch freshWorkflow [] with
        queue := [⟨"complete", none⟩] }).1.queue = [] ∧
    (runLoop 4 { mkOrch freshWorkflow [] with
        queue := [⟨"complete", none⟩] }).2 = true ∧
    isTerminal (runLoop 4 { mkOrch freshWorkflow [] with
        queue := [⟨"complete", none⟩] }).1.machineState = true :=
  ⟨rfl,
   C6_error_caught_reaches_terminal.1 (mkOrch freshWorkflow [])
     ⟨"complete", none⟩ .triggerAttr
     (fireErrorText (.invalidTransition "complete" WState.INIT)) rfl rfl,
   rfl, rfl,
   C6_error_caught_reaches_terminal.2 4
     { mkOrch freshWorkflow [] with queue := [⟨"complete", none⟩] } rfl rfl⟩

/-- C5.  After every core operation — any trigger firing (including `retry`
and `cancel`), a run of the event loop, `execute_automatic`, and
`execute_next_step` — the persisted record still satisfies
`status == current_state`; moreover a trigger firing updates the two fields
together: either both are untouched or both are set to the fired
transition's destination. -/
theorem C5_status_matches_current_state :
    (∀ (o : Orch) (name : String) (err : Option String), statusInv o →
      statusInv (fireTriggerTotal o name err).1) ∧
    (∀ (fuel : Nat) (o : Orch), statusInv o → statusInv (runLoop fuel o).1) ∧
    (∀ (o : Orch) (oc : WState → TaskOutcome), statusInv o →
      statusInv (executeAutomatic o oc).1) ∧
    (∀ (o : Orch) (oc : WState → TaskOutcome), statusInv o →
      statusInv (executeNextStep o oc).1) ∧
    (∀ (o : Orch) (name : String) (err : Option String),
      ((fireTriggerTotal o name err).1.workflow.status = o.workflow.status ∧
       (fireTriggerTotal o name err).1.workflow.current_state
         = o.workflow.current_state) ∨
      (∃ t, findTransition name = some t ∧
        (fireTriggerTotal o name err).1.workflow.status = t.dest ∧
        (fireTriggerTotal o name err).1.workflow.current_state = t.dest)) :=
  ⟨statusInv_fireTrigger, fun fuel o => statusInv_runLoop fuel o,
   statusInv_executeAutomatic, statusInv_executeNextStep,
   fireTrigger_status_pair⟩

/-- C5 — witness: the invariant holds on a fresh instance and is kept by a
`prepare` firing and by a full automatic run. -/
theorem C5_status_matches_current_state_witness :
    statusInv (mkOrch freshWorkflow []) ∧
    statusInv (fireTriggerTotal (mkOrch freshWorkflow []) "prepare" none).1 ∧
    statusInv (executeAutomatic (mkOrch freshWorkflow []) allSuccess).1 :=
  ⟨rfl,
   C5_status_matches_current_state.1 (mkOrch freshWorkflow []) "prepare"
     none rfl,
   C5_status_matches_current_state.2.2.1 (mkOrch freshWorkflow [])
     allSuccess rfl⟩

end Orchestrator

namespace WorkerManager

/-- C9.  A task spec whose `task_type` matches none of the recognized types
falls into the default branch: the workflow-task path returns the no-op
"default task" body and `_execute_workflow_task` wraps it as a success with
no error; the generic path returns the no-op body. -/
theorem C9_unrecognized_type_noop_success :
    (∀ (ty : String) (cfg : TaskConfig), ty ∉ workflowTaskTypes →
      runWorkflowTaskLogic ty cfg = .defaultRun ty ∧
      (executeWorkflowTask ty cfg).success = true ∧
      (executeWorkflowTask ty cfg).error = none) ∧
    (∀ (ty : String) (cfg : TaskConfig), ty ∉ genericTaskTypes →
      runTaskLogic ty cfg = .noopDone ty) := by
  constructor
  · intro ty cfg h
    simp only [workflowTaskTypes, List.mem_cons, List.not_mem_nil, or_false,
      not_or] at h
    obtain ⟨h1, h2, h3, h4, h5⟩ := h
    refine ⟨?_, rfl, rfl⟩
    simp only [runWorkflowTaskLogic, beq_iff_eq]
    rw [if_neg h1, if_neg h2, if_neg h3, if_neg h4, if_neg h5]
  · intro ty cfg h
    simp only [genericTaskTypes, List.mem_cons, List.not_mem_nil, or_false,
      not_or] at h
    obtain ⟨h1, h2, h3⟩ := h
    simp only [runTaskLogic, beq_iff_eq]
    rw [if_neg h1, if_neg h2, if_neg h3]

/-- C9 — witness at the unrecognized type `frobnicate`. -/
theorem C9_unrecognized_type_noop_success_witness :
    ("frobnicate" ∉ workflowTaskTypes) ∧
    runWorkflowTaskLogic "frobnicate" ⟨none, none, none⟩ =
      .defaultRun "frobnicate" ∧
    (executeWorkflowTask "frobnicate" ⟨none, none, none⟩).success = true ∧
    ("frobnicate" ∉ genericTaskTypes) ∧
    runTaskLogic "frobnicate" ⟨none, none, none⟩ = .noopDone "frobnicate" := by
  refine ⟨by decide, ?_, ?_, by decide, ?_⟩
  · exact (C9_unrecognized_type_noop_success.1 "frobnicate"
      ⟨none, none, none⟩ (by decide)).1
  · exact (C9_unrecognized_type_noop_success.1 "frobnicate"
      ⟨none, none, none⟩ (by decide)).2.1
  · exact C9_unrecognized_type_noop_success.2 "frobnicate"
      ⟨none, none, none⟩ (by decide)

end WorkerManager
